import Mathlib

/-!
Verification of the medstock-wise computational core.

Shallow embedding of the three serverless functions:
  src/supabase/functions/run-predictions/index.ts
  src/supabase/functions/calculate-cost-optimization/index.ts
  src/supabase/functions/seed-sample-data/index.ts

JavaScript numbers are embedded as `ℚ` where the code uses only field
arithmetic (predictions, alerts, seeding) and as `ℝ` where `Math.sqrt`
appears (cost optimization).  The relational store is modelled as part of
an environment record; store writes are modelled as succeeding, and the
list of rows a handler inserts/upserts is returned alongside its HTTP
response.
-/

namespace MedStock

/-! ### run-predictions/index.ts -/

/-- `InventoryItem` interface (run-predictions/index.ts lines 25-34),
extended with the columns the handlers read off the selected row. -/
structure InventoryItem where
  id : String
  item_name : String
  item_type : String
  current_stock : ℚ
  min_required : ℚ
  max_capacity : ℚ
  unit_cost : ℚ
  avg_usage_per_day : ℚ
  restock_lead_time : ℚ
  vendor_name : Option String
deriving DecidableEq

/-- JavaScript `x || 1` on a number: `0` is falsy, any other value is kept. -/
def orOne (x : ℚ) : ℚ := if x = 0 then 1 else x

structure FeatureContributions where
  avg_usage_per_day : ℚ
  restock_lead_time : ℚ
  current_stock : ℚ
  min_required : ℚ
deriving DecidableEq

structure DemandPrediction where
  estimated_demand : ℚ
  inventory_shortfall : ℚ
  replenishment_needs : ℚ
  feature_contributions : FeatureContributions
deriving DecidableEq

/-- `predictDemand` (run-predictions/index.ts lines 37-66). -/
def predictDemand (item : InventoryItem) : DemandPrediction :=
  let estimated_demand := item.avg_usage_per_day * item.restock_lead_time
  let inventory_shortfall := max 0 (item.min_required - item.current_stock)
  let replenishment_needs := max 0 (estimated_demand - item.current_stock)
  { estimated_demand := estimated_demand
    inventory_shortfall := inventory_shortfall
    replenishment_needs := replenishment_needs
    feature_contributions :=
      { avg_usage_per_day := item.avg_usage_per_day / orOne estimated_demand * 0.4
        restock_lead_time := item.restock_lead_time / orOne estimated_demand * 0.3
        current_stock := item.current_stock / orOne item.max_capacity * 0.15
        min_required := item.min_required / orOne item.max_capacity * 0.15 } }

inductive Severity where
  | info | warning | critical
deriving DecidableEq

inductive AlertType where
  | critical_stock | low_stock
deriving DecidableEq

/-- An alert row as built by run-predictions (title/message strings are
formatting and are omitted; the metadata payload is kept). -/
structure Alert where
  alert_type : AlertType
  severity : Severity
  item_id : String
  meta_current_stock : ℚ
  meta_min_required : ℚ
  meta_predicted_demand : ℚ
deriving DecidableEq

/-- Alert generation in the run-predictions per-item loop
(run-predictions/index.ts lines 180-208). -/
def generateAlert (item : InventoryItem) (predictedDemand : ℚ) : Option Alert :=
  let stockPercentage := item.current_stock / item.min_required * 100
  if stockPercentage < 10 then
    some { alert_type := .critical_stock, severity := .critical, item_id := item.id
           meta_current_stock := item.current_stock
           meta_min_required := item.min_required
           meta_predicted_demand := predictedDemand }
  else if stockPercentage < 20 then
    some { alert_type := .low_stock, severity := .warning, item_id := item.id
           meta_current_stock := item.current_stock
           meta_min_required := item.min_required
           meta_predicted_demand := predictedDemand }
  else
    none

/-- A `model_registry` row as the handlers read it. -/
structure ModelEntry where
  id : String
  model_version : String
  is_active : Bool
  created_at : ℕ
deriving DecidableEq

/-- The query `model_registry where is_active order by created_at desc limit 1`
(run-predictions/index.ts lines 94-99): most recently created active row. -/
def latestActive (models : List ModelEntry) : Option ModelEntry :=
  (models.filter (·.is_active)).foldl
    (fun acc m =>
      match acc with
      | none => some m
      | some a => if a.created_at < m.created_at then some m else some a)
    none

/-- `authHeader.replace('Bearer ', '')` (run-predictions/index.ts line 84).
JavaScript `replace` with a string pattern replaces only the first
occurrence; the difference is immaterial here since the token is opaque. -/
def bearerToken (h : String) : String := h.replace "Bearer " ""

/-- The `single_prediction` request field (run-predictions/index.ts lines 12-22). -/
structure SinglePrediction where
  item_name : String
  item_type : String
  current_stock : ℚ
  min_required : ℚ
  max_capacity : ℚ
  avg_usage_per_day : ℚ
  restock_lead_time : ℚ
  unit_cost : ℚ
  vendor_name : Option String
deriving DecidableEq

/-- `{ id: 'demo', ...single_prediction } as InventoryItem`
(run-predictions/index.ts lines 109-112). -/
def SinglePrediction.toItem (sp : SinglePrediction) : InventoryItem :=
  { id := "demo"
    item_name := sp.item_name
    item_type := sp.item_type
    current_stock := sp.current_stock
    min_required := sp.min_required
    max_capacity := sp.max_capacity
    unit_cost := sp.unit_cost
    avg_usage_per_day := sp.avg_usage_per_day
    restock_lead_time := sp.restock_lead_time
    vendor_name := sp.vendor_name }

/-- Parsed request body plus the authorization header. -/
structure PredictionRequest where
  authHeader : Option String
  item_id : Option String
  run_all : Bool
  single_prediction : Option SinglePrediction
deriving DecidableEq

/-- Store and identity-provider state visible to run-predictions. -/
structure Env where
  getUser : String → Option String
  models : List ModelEntry
  items : List InventoryItem

/-- Rows run-predictions writes to the store. -/
inductive PredWrite where
  | prediction (item_id : String)
      (estimated_demand replenishment_needs inventory_shortfall : ℚ)
      (predicted_by : String)
  | history (item_id : String) (model_version_id : String)
      (predicted_demand : ℚ) (fc : FeatureContributions) (created_by : String)
  | alertBatch (alerts : List Alert)
deriving DecidableEq

structure HttpResponse (β : Type) where
  status : ℕ
  body : β

inductive PredBody where
  | demo (p : DemandPrediction) (model_version : String)
  | batch (predictions : List (String × DemandPrediction))
      (alerts_generated : ℕ) (model_version : String)
  | error (msg : String)
deriving DecidableEq

/-- Item selection shared by both compute handlers: filter by `item_id`
unless `run_all` (run-predictions/index.ts lines 128-131). -/
def selectItems (items : List InventoryItem) (run_all : Bool)
    (item_id : Option String) : List InventoryItem :=
  match run_all, item_id with
  | false, some i => items.filter (fun it => it.id == i)
  | _, _ => items

/-- The run-predictions handler (run-predictions/index.ts lines 68-242),
returning the HTTP response together with the store writes it performs.
Inserts are modelled as succeeding. -/
def runPredictions (env : Env) (req : PredictionRequest) :
    HttpResponse PredBody × List PredWrite :=
  match req.authHeader with
  | none => (⟨500, .error "Missing authorization header"⟩, [])
  | some h =>
    match env.getUser (bearerToken h) with
    | none => (⟨500, .error "Unauthorized"⟩, [])
    | some userId =>
      match latestActive env.models with
      | none => (⟨500, .error "No active model found"⟩, [])
      | some activeModel =>
        match req.single_prediction with
        | some sp =>
          (⟨200, .demo (predictDemand sp.toItem) activeModel.model_version⟩, [])
        | none =>
          let items := selectItems env.items req.run_all req.item_id
          if items.isEmpty then
            (⟨500, .error "No items found"⟩, [])
          else
            let perItem := items.map (fun item =>
              let p := predictDemand item
              ((item.id, p),
               [PredWrite.prediction item.id p.estimated_demand
                  p.replenishment_needs p.inventory_shortfall userId,
                PredWrite.history item.id activeModel.id p.estimated_demand
                  p.feature_contributions userId],
               generateAlert item p.estimated_demand))
            let predictions := perItem.map (·.1)
            let alerts := perItem.filterMap (·.2.2)
            let writes := (perItem.map (·.2.1)).flatten ++
              (if alerts.isEmpty then [] else [PredWrite.alertBatch alerts])
            (⟨200, .batch predictions alerts.length activeModel.model_version⟩,
             writes)

/-! ### calculate-cost-optimization/index.ts -/

/-- The inventory row as the cost-optimization handler reads it
(calculate-cost-optimization/index.ts lines 14-22, plus `max_capacity`
which the loop reads off the selected row at line 117).  Fields are real
numbers because the computation uses `Math.sqrt`. -/
structure CostItem where
  id : String
  item_name : String
  current_stock : ℝ
  min_required : ℝ
  max_capacity : ℝ
  unit_cost : ℝ
  avg_usage_per_day : ℝ
  restock_lead_time : ℝ

/-- `calculateEOQ` (calculate-cost-optimization/index.ts lines 25-31). -/
noncomputable def calculateEOQ (annualDemand orderingCost holdingCostPerUnit : ℝ) : ℝ :=
  Real.sqrt ((2 * annualDemand * orderingCost) / holdingCostPerUnit)

/-- `calculateReorderPoint` (calculate-cost-optimization/index.ts lines 34-40). -/
def calculateReorderPoint (dailyDemand leadTime safetyStock : ℝ) : ℝ :=
  (dailyDemand * leadTime) + safetyStock

/-- `calculateSafetyStock` (calculate-cost-optimization/index.ts lines 43-52).
The source gives `serviceLevel` the default value `1.65`; callers pass it
explicitly here. -/
noncomputable def calculateSafetyStock (dailyDemand leadTime serviceLevel : ℝ) : ℝ :=
  let demandStdDev := dailyDemand * 0.2
  let leadTimeStdDev := Real.sqrt leadTime
  serviceLevel * demandStdDev * leadTimeStdDev

/-- The `cost_optimization` row inserted per item
(calculate-cost-optimization/index.ts lines 127-145); the `parameters`
JSON blob is carried in the last five fields. -/
structure CostRow where
  item_id : String
  eoq : ℝ
  reorder_point : ℝ
  safety_stock : ℝ
  optimal_order_quantity : ℝ
  estimated_annual_cost : ℝ
  p_annual_demand : ℝ
  p_holding_cost_per_unit : ℝ
  p_number_of_orders : ℝ
  p_annual_ordering_cost : ℝ
  p_annual_holding_cost : ℝ

/-- One element of the `optimizations` response array
(calculate-cost-optimization/index.ts lines 148-158). -/
structure OptimizationResult where
  item_id : String
  item_name : String
  eoq : ℝ
  reorder_point : ℝ
  safety_stock : ℝ
  optimal_order_quantity : ℝ
  estimated_annual_cost : ℝ
  current_stock : ℝ
  should_reorder : Prop

/-- The per-item body of the optimization loop
(calculate-cost-optimization/index.ts lines 92-158): the inserted row and
the response element. -/
noncomputable def optimizeItem (item : CostItem) : CostRow × OptimizationResult :=
  let annualDemand := item.avg_usage_per_day * 365
  let orderingCost : ℝ := 50
  let holdingCostRate : ℝ := 0.25
  let holdingCostPerUnit := item.unit_cost * holdingCostRate
  let eoq := calculateEOQ annualDemand orderingCost holdingCostPerUnit
  let safetyStock := calculateSafetyStock item.avg_usage_per_day item.restock_lead_time 1.65
  let reorderPoint := calculateReorderPoint item.avg_usage_per_day item.restock_lead_time safetyStock
  let optimalOrderQty := min ((⌈eoq⌉ : ℤ) : ℝ) item.max_capacity
  let numberOfOrders := annualDemand / optimalOrderQty
  let annualOrderingCost := numberOfOrders * orderingCost
  let averageInventory := (optimalOrderQty / 2) + safetyStock
  let annualHoldingCost := averageInventory * holdingCostPerUnit
  let estimatedAnnualCost := annualOrderingCost + annualHoldingCost + (annualDemand * item.unit_cost)
  ({ item_id := item.id
     eoq := ((⌈eoq⌉ : ℤ) : ℝ)
     reorder_point := ((⌈reorderPoint⌉ : ℤ) : ℝ)
     safety_stock := ((⌈safetyStock⌉ : ℤ) : ℝ)
     optimal_order_quantity := optimalOrderQty
     estimated_annual_cost := estimatedAnnualCost
     p_annual_demand := annualDemand
     p_holding_cost_per_unit := holdingCostPerUnit
     p_number_of_orders := numberOfOrders
     p_annual_ordering_cost := annualOrderingCost
     p_annual_holding_cost := annualHoldingCost },
   { item_id := item.id
     item_name := item.item_name
     eoq := ((⌈eoq⌉ : ℤ) : ℝ)
     reorder_point := ((⌈reorderPoint⌉ : ℤ) : ℝ)
     safety_stock := ((⌈safetyStock⌉ : ℤ) : ℝ)
     optimal_order_quantity := optimalOrderQty
     estimated_annual_cost := estimatedAnnualCost
     current_stock := item.current_stock
     should_reorder := item.current_stock ≤ reorderPoint })

structure CostRequest where
  authHeader : Option String
  item_id : Option String
  run_all : Bool

/-- Store and identity-provider state visible to cost optimization. -/
structure CostEnv where
  getUser : String → Option String
  items : List CostItem

inductive CostBody where
  | success (optimizations : List OptimizationResult) (total_items : ℕ)
  | error (msg : String)

/-- Item selection for cost optimization
(calculate-cost-optimization/index.ts lines 80-83). -/
def selectCostItems (items : List CostItem) (run_all : Bool)
    (item_id : Option String) : List CostItem :=
  match run_all, item_id with
  | false, some i => items.filter (fun it => it.id == i)
  | _, _ => items

/-- The calculate-cost-optimization handler
(calculate-cost-optimization/index.ts lines 54-186), returning the HTTP
response together with the rows it inserts.  Inserts are modelled as
succeeding. -/
noncomputable def runCostOptimization (env : CostEnv) (req : CostRequest) :
    HttpResponse CostBody × List CostRow :=
  match req.authHeader with
  | none => (⟨500, .error "Missing authorization header"⟩, [])
  | some h =>
    match env.getUser (bearerToken h) with
    | none => (⟨500, .error "Unauthorized"⟩, [])
    | some _userId =>
      let items := selectCostItems env.items req.run_all req.item_id
      if items.isEmpty then
        (⟨500, .error "No items found"⟩, [])
      else
        let perItem := items.map optimizeItem
        (⟨200, .success (perItem.map (·.2)) (perItem.map (·.2)).length⟩,
         perItem.map (·.1))

/-! ### seed-sample-data/index.ts -/

/-- The fixed demonstration catalog (seed-sample-data/index.ts lines 22-111).
The store assigns row ids on upsert; they are modelled as the (unique)
item names. -/
def seedItems : List InventoryItem :=
  [ { id := "Ventilator", item_name := "Ventilator", item_type := "Equipment"
      current_stock := 2487, min_required := 656, max_capacity := 3556
      unit_cost := 5832.29, avg_usage_per_day := 55, restock_lead_time := 12
      vendor_name := some "MedSupply Inc" },
    { id := "Surgical Mask", item_name := "Surgical Mask", item_type := "PPE"
      current_stock := 2371, min_required := 384, max_capacity := 5562
      unit_cost := 16062.98, avg_usage_per_day := 470, restock_lead_time := 6
      vendor_name := some "HealthCare Supplies" },
    { id := "IV Drip", item_name := "IV Drip", item_type := "Medical Supplies"
      current_stock := 2410, min_required := 338, max_capacity := 1013
      unit_cost := 15426.53, avg_usage_per_day := 158, restock_lead_time := 12
      vendor_name := some "PharmaTech" },
    { id := "Surgical Gloves", item_name := "Surgical Gloves", item_type := "PPE"
      current_stock := 1542, min_required := 264, max_capacity := 1018
      unit_cost := 4467.55, avg_usage_per_day := 108, restock_lead_time := 17
      vendor_name := some "MedSupply Inc" },
    { id := "Syringes", item_name := "Syringes", item_type := "Medical Supplies"
      current_stock := 2038, min_required := 438, max_capacity := 1131
      unit_cost := 744.10, avg_usage_per_day := 207, restock_lead_time := 15
      vendor_name := some "HealthCare Supplies" },
    { id := "Bandages", item_name := "Bandages", item_type := "Medical Supplies"
      current_stock := 1850, min_required := 500, max_capacity := 2500
      unit_cost := 125.50, avg_usage_per_day := 95, restock_lead_time := 10
      vendor_name := some "PharmaTech" },
    { id := "X-Ray Film", item_name := "X-Ray Film", item_type := "Equipment"
      current_stock := 320, min_required := 150, max_capacity := 800
      unit_cost := 2350.00, avg_usage_per_day := 12, restock_lead_time := 14
      vendor_name := some "MedSupply Inc" },
    { id := "Oxygen Tanks", item_name := "Oxygen Tanks", item_type := "Equipment"
      current_stock := 180, min_required := 200, max_capacity := 500
      unit_cost := 8500.00, avg_usage_per_day := 8, restock_lead_time := 20
      vendor_name := some "PharmaTech" } ]

/-- A `prediction_history` row as built by the seeding routine
(seed-sample-data/index.ts lines 168-192); the fixed contribution list
`[45.0, 30.0, 15.0]` is inlined.  `rand` stands for the `Math.random()`
draw in `confidence_score`. -/
structure SeedHistoryRow where
  item_id : String
  model_version_id : String
  predicted_demand : ℚ
  confidence_score : ℚ
  fv_avg_usage_per_day : ℚ
  fv_restock_lead_time : ℚ
  fv_current_stock : ℚ
  fv_shortfall : ℚ
  fv_replenishment_needs : ℚ
  fv_unit_cost : ℚ
  contributions : List (String × ℚ)
deriving DecidableEq

def seedHistoryRow (modelId : String) (rand : ℚ) (item : InventoryItem) :
    SeedHistoryRow :=
  let estimatedDemand := item.avg_usage_per_day * item.restock_lead_time
  let inventoryShortfall := max 0 (item.min_required - item.current_stock)
  let replenishmentNeeds := max 0 (item.max_capacity - item.current_stock)
  { item_id := item.id
    model_version_id := modelId
    predicted_demand := estimatedDemand
    confidence_score := 0.85 + rand * 0.1
    fv_avg_usage_per_day := item.avg_usage_per_day
    fv_restock_lead_time := item.restock_lead_time
    fv_current_stock := item.current_stock
    fv_shortfall := inventoryShortfall
    fv_replenishment_needs := replenishmentNeeds
    fv_unit_cost := item.unit_cost
    contributions :=
      [("Avg_Usage_Per_Day", 45.0), ("Restock_Lead_Time", 30.0),
       ("Current_Stock", 15.0)] }

/-- A dashboard `predictions` row as built by the seeding routine
(seed-sample-data/index.ts lines 206-217). -/
structure SeedDashboardRow where
  item_id : String
  estimated_demand : ℚ
  inventory_shortfall : ℚ
  replenishment_needs : ℚ
deriving DecidableEq

def seedDashboardRow (item : InventoryItem) : SeedDashboardRow :=
  let estimatedDemand := item.avg_usage_per_day * item.restock_lead_time
  let inventoryShortfall := max 0 (item.min_required - item.current_stock)
  let replenishmentNeeds := max 0 (item.max_capacity - item.current_stock)
  { item_id := item.id
    estimated_demand := estimatedDemand
    inventory_shortfall := inventoryShortfall
    replenishment_needs := replenishmentNeeds }

/-- A seeded alert (seed-sample-data/index.ts lines 235-246): type is
always `low_stock`, severity `critical` below half the minimum. -/
structure SeedAlert where
  alert_type : AlertType
  severity : Severity
  item_id : String
  meta_current_stock : ℚ
  meta_min_required : ℚ
  meta_shortfall : ℚ
deriving DecidableEq

def seedAlert (item : InventoryItem) : SeedAlert :=
  { alert_type := .low_stock
    severity := if item.current_stock < item.min_required * 0.5
      then .critical else .warning
    item_id := item.id
    meta_current_stock := item.current_stock
    meta_min_required := item.min_required
    meta_shortfall := item.min_required - item.current_stock }

/-- Rows seed-sample-data writes to the store. -/
inductive SeedWrite where
  | inventoryUpsert (items : List InventoryItem)
  | modelUpsert (model_version : String)
  | historyInsert (rows : List SeedHistoryRow)
  | dashboardUpsert (rows : List SeedDashboardRow)
  | alertInsert (alerts : List SeedAlert)
deriving DecidableEq

inductive SeedBody where
  | success (inventory_items predictions alerts : ℕ)
  | error (msg : String)
deriving DecidableEq

/-- Environment for seeding: the store-assigned model row id and the
`Math.random()` draws (one per item, by position). -/
structure SeedEnv where
  modelId : String
  rand : ℕ → ℚ

/-- The seed-sample-data handler (seed-sample-data/index.ts lines 9-279),
returning the HTTP response together with the store writes it performs.
The source performs no credential check: `authHeader` is taken but never
consulted.  Upserts and inserts are modelled as succeeding. -/
def seedSampleData (env : SeedEnv) (_authHeader : Option String) :
    HttpResponse SeedBody × List SeedWrite :=
  let insertedItems := seedItems
  let history := insertedItems.enum.map
    (fun p => seedHistoryRow env.modelId (env.rand p.1) p.2)
  let dash := insertedItems.map seedDashboardRow
  let lowStockItems := insertedItems.filter
    (fun it => decide (it.current_stock < it.min_required))
  let alerts := lowStockItems.map seedAlert
  let writes :=
    [SeedWrite.inventoryUpsert insertedItems,
     SeedWrite.modelUpsert "v1.0.0",
     SeedWrite.historyInsert history,
     SeedWrite.dashboardUpsert dash] ++
    (if alerts.isEmpty then [] else [SeedWrite.alertInsert alerts])
  (⟨200, .success insertedItems.length insertedItems.length lowStockItems.length⟩,
   writes)

/-! ### Concrete instances used to exercise the theorems -/

/-- The Ventilator catalog item (seed-sample-data/index.ts lines 23-33),
also the scenario item of the spec. -/
def ventilatorItem : InventoryItem :=
  { id := "Ventilator", item_name := "Ventilator", item_type := "Equipment"
    current_stock := 2487, min_required := 656, max_capacity := 3556
    unit_cost := 5832.29, avg_usage_per_day := 55, restock_lead_time := 12
    vendor_name := some "MedSupply Inc" }

/-- Stock at exactly 10% of the minimum. -/
def tenPercentItem : InventoryItem :=
  { id := "t10", item_name := "t10", item_type := "Equipment"
    current_stock := 10, min_required := 100, max_capacity := 1000
    unit_cost := 1, avg_usage_per_day := 1, restock_lead_time := 1
    vendor_name := none }

/-- Stock at exactly 20% of the minimum. -/
def twentyPercentItem : InventoryItem :=
  { id := "t20", item_name := "t20", item_type := "Equipment"
    current_stock := 20, min_required := 100, max_capacity := 1000
    unit_cost := 1, avg_usage_per_day := 1, restock_lead_time := 1
    vendor_name := none }

/-- Stock at 19.999% of the minimum. -/
def nearTwentyItem : InventoryItem :=
  { id := "t19999", item_name := "t19999", item_type := "Equipment"
    current_stock := 19999, min_required := 100000, max_capacity := 1000000
    unit_cost := 1, avg_usage_per_day := 1, restock_lead_time := 1
    vendor_name := none }

/-- Stock at 90% of the minimum (the Oxygen Tanks scenario of the spec). -/
def ninetyPercentItem : InventoryItem :=
  { id := "Oxygen Tanks", item_name := "Oxygen Tanks", item_type := "Equipment"
    current_stock := 180, min_required := 200, max_capacity := 500
    unit_cost := 8500, avg_usage_per_day := 8, restock_lead_time := 20
    vendor_name := some "PharmaTech" }

def c6ItemLow : CostItem :=
  { id := "a", item_name := "a", current_stock := 10, min_required := 5
    max_capacity := 100, unit_cost := 4, avg_usage_per_day := 1
    restock_lead_time := 9 }

def c6ItemHigh : CostItem :=
  { id := "a", item_name := "a", current_stock := 10, min_required := 5
    max_capacity := 100, unit_cost := 4, avg_usage_per_day := 2
    restock_lead_time := 9 }

def c10Item : CostItem :=
  { id := "w", item_name := "w", current_stock := 2, min_required := 1
    max_capacity := 100, unit_cost := 1, avg_usage_per_day := 1
    restock_lead_time := 1 }

def seedEnvW : SeedEnv := { modelId := "m", rand := fun _ => 0 }

def predEnvW : Env := { getUser := fun _ => none, models := [], items := [] }

def predReqNoAuth : PredictionRequest :=
  { authHeader := none, item_id := none, run_all := false, single_prediction := none }

def costEnvW : CostEnv := { getUser := fun _ => none, items := [] }

def costReqBadToken : CostRequest :=
  { authHeader := some "Bearer bad", item_id := none, run_all := false }

def demoModelW : ModelEntry :=
  { id := "m1", model_version := "v1.0.0", is_active := true, created_at := 0 }

def demoEnvW : Env :=
  { getUser := fun _ => some "user1", models := [demoModelW], items := [] }

def demoSpW : SinglePrediction :=
  { item_name := "Demo", item_type := "Equipment", current_stock := 5
    min_required := 10, max_capacity := 20, avg_usage_per_day := 2
    restock_lead_time := 3, unit_cost := 1, vendor_name := none }

def demoReqW : PredictionRequest :=
  { authHeader := some "Bearer tok", item_id := none, run_all := false
    single_prediction := some demoSpW }

/-! ### Theorems -/

/-- C1: `predictDemand` returns `estimated_demand = avg_usage_per_day *
restock_lead_time`, `inventory_shortfall = max(0, min_required -
current_stock)`, `replenishment_needs = max(0, estimated_demand -
current_stock)`, and feature contributions equal to the fixed coefficients
0.4, 0.3, 0.15, 0.15 scaled by `avg_usage_per_day/estimated_demand`,
`restock_lead_time/estimated_demand`, `current_stock/max_capacity`,
`min_required/max_capacity`, substituting 1 for a zero denominator; the
item with usage 55, lead time 12, stock 2487, minimum 656 yields demand
660, shortfall 0 and replenishment 0. -/
theorem predictDemand_spec :
    (∀ item : InventoryItem,
      (predictDemand item).estimated_demand =
        item.avg_usage_per_day * item.restock_lead_time ∧
      (predictDemand item).inventory_shortfall =
        max 0 (item.min_required - item.current_stock) ∧
      (predictDemand item).replenishment_needs =
        max 0 (item.avg_usage_per_day * item.restock_lead_time -
          item.current_stock) ∧
      (predictDemand item).feature_contributions.avg_usage_per_day =
        0.4 * (item.avg_usage_per_day /
          (if item.avg_usage_per_day * item.restock_lead_time = 0 then 1
           else item.avg_usage_per_day * item.restock_lead_time)) ∧
      (predictDemand item).feature_contributions.restock_lead_time =
        0.3 * (item.restock_lead_time /
          (if item.avg_usage_per_day * item.restock_lead_time = 0 then 1
           else item.avg_usage_per_day * item.restock_lead_time)) ∧
      (predictDemand item).feature_contributions.current_stock =
        0.15 * (item.current_stock /
          (if item.max_capacity = 0 then 1 else item.max_capacity)) ∧
      (predictDemand item).feature_contributions.min_required =
        0.15 * (item.min_required /
          (if item.max_capacity = 0 then 1 else item.max_capacity))) ∧
    (∀ item : InventoryItem,
      item.avg_usage_per_day = 55 → item.restock_lead_time = 12 →
      item.current_stock = 2487 → item.min_required = 656 →
      (predictDemand item).estimated_demand = 660 ∧
      (predictDemand item).inventory_shortfall = 0 ∧
      (predictDemand item).replenishment_needs = 0) := by
  constructor
  · intro item
    refine ⟨rfl, rfl, rfl, ?_, ?_, ?_, ?_⟩ <;>
      simp only [predictDemand, orOne] <;> ring
  · intro item h1 h2 h3 h4
    refine ⟨?_, ?_, ?_⟩ <;> simp [predictDemand, h1, h2, h3, h4] <;> norm_num

/-- Witness for C1 at the Ventilator scenario item. -/
theorem predictDemand_spec_witness :
    (ventilatorItem.avg_usage_per_day = 55 ∧
     ventilatorItem.restock_lead_time = 12 ∧
     ventilatorItem.current_stock = 2487 ∧
     ventilatorItem.min_required = 656) ∧
    ((predictDemand ventilatorItem).estimated_demand = 660 ∧
     (predictDemand ventilatorItem).inventory_shortfall = 0 ∧
     (predictDemand ventilatorItem).replenishment_needs = 0) :=
  ⟨⟨rfl, rfl, rfl, rfl⟩, predictDemand_spec.2 ventilatorItem rfl rfl rfl rfl⟩

/-- C3: for an item with `min_required > 0` and stock percentage
`current_stock / min_required * 100`, the run-predictions loop generates a
`critical`/`critical_stock` alert below 10, a `warning`/`low_stock` alert
in `[10, 20)`, and no alert at or above 20. -/
theorem generateAlert_thresholds (item : InventoryItem) (pd : ℚ)
    (_hmin : 0 < item.min_required) :
    (item.current_stock / item.min_required * 100 < 10 →
      generateAlert item pd = some
        { alert_type := .critical_stock, severity := .critical
          item_id := item.id, meta_current_stock := item.current_stock
          meta_min_required := item.min_required
          meta_predicted_demand := pd }) ∧
    (10 ≤ item.current_stock / item.min_required * 100 →
      item.current_stock / item.min_required * 100 < 20 →
      generateAlert item pd = some
        { alert_type := .low_stock, severity := .warning
          item_id := item.id, meta_current_stock := item.current_stock
          meta_min_required := item.min_required
          meta_predicted_demand := pd }) ∧
    (20 ≤ item.current_stock / item.min_required * 100 →
      generateAlert item pd = none) := by
  refine ⟨fun h => ?_, fun h1 h2 => ?_, fun h => ?_⟩ <;>
    simp only [generateAlert]
  · rw [if_pos h]
  · rw [if_neg (not_lt.mpr h1), if_pos h2]
  · rw [if_neg (by linarith), if_neg (not_lt.mpr h)]

/-- Witness for C3 at the Oxygen Tanks scenario item (stock at 90%). -/
theorem generateAlert_thresholds_witness :
    ((0 : ℚ) < ninetyPercentItem.min_required ∧
     20 ≤ ninetyPercentItem.current_stock / ninetyPercentItem.min_required * 100) ∧
    generateAlert ninetyPercentItem 160 = none :=
  ⟨⟨by norm_num [ninetyPercentItem], by norm_num [ninetyPercentItem]⟩,
   (generateAlert_thresholds ninetyPercentItem 160
      (by norm_num [ninetyPercentItem])).2.2 (by norm_num [ninetyPercentItem])⟩

/-- C4 counterexample: at exactly 10% of the minimum the generated alert
has severity `warning`, not `critical` — the critical band is strict
(`< 10`). -/
theorem alert_exact_ten_counterexample :
    tenPercentItem.current_stock / tenPercentItem.min_required * 100 = 10 ∧
    (generateAlert tenPercentItem 0).map Alert.severity ≠
      some Severity.critical ∧
    (generateAlert tenPercentItem 0).map Alert.severity =
      some Severity.warning := by
  refine ⟨by norm_num [tenPercentItem], ?_, ?_⟩
  · norm_num [generateAlert, tenPercentItem]
    decide
  · norm_num [generateAlert, tenPercentItem]

/-- C4 amended: at exactly 10% of the minimum the Alert Generator yields a
`warning`/`low_stock` alert (the critical band is strict `< 10`); at
exactly 20% it yields no alert; at 19.999% it yields a `warning`/`low_stock`
alert. -/
theorem alert_boundaries_amended :
    (generateAlert tenPercentItem 0).map Alert.severity =
      some Severity.warning ∧
    (generateAlert tenPercentItem 0).map Alert.alert_type =
      some AlertType.low_stock ∧
    generateAlert twentyPercentItem 0 = none ∧
    (generateAlert nearTwentyItem 0).map Alert.severity =
      some Severity.warning ∧
    (generateAlert nearTwentyItem 0).map Alert.alert_type =
      some AlertType.low_stock := by
  refine ⟨?_, ?_, ?_, ?_, ?_⟩ <;>
    norm_num [generateAlert, tenPercentItem, twentyPercentItem, nearTwentyItem]

/-- C7 counterexample: on the Ventilator item the seeding routine writes
`replenishment_needs = 1069` (from `max_capacity - current_stock`) while
`predictDemand` returns 0 (from `estimated_demand - current_stock`). -/
theorem seed_replenishment_counterexample :
    (seedDashboardRow ventilatorItem).replenishment_needs = 1069 ∧
    (predictDemand ventilatorItem).replenishment_needs = 0 ∧
    (seedDashboardRow ventilatorItem).replenishment_needs ≠
      (predictDemand ventilatorItem).replenishment_needs := by
  refine ⟨?_, ?_, ?_⟩ <;>
    norm_num [seedDashboardRow, predictDemand, ventilatorItem]

/-- C7 amended: the seeded rows agree with `predictDemand` on
`estimated_demand` and `inventory_shortfall`, but their
`replenishment_needs` is `max(0, max_capacity - current_stock)` rather
than `predictDemand`'s `max(0, estimated_demand - current_stock)`. -/
theorem seed_vs_predict_amended (mid : String) (r : ℚ) (item : InventoryItem) :
    (seedDashboardRow item).estimated_demand =
      (predictDemand item).estimated_demand ∧
    (seedDashboardRow item).inventory_shortfall =
      (predictDemand item).inventory_shortfall ∧
    (seedHistoryRow mid r item).predicted_demand =
      (predictDemand item).estimated_demand ∧
    (seedHistoryRow mid r item).fv_shortfall =
      (predictDemand item).inventory_shortfall ∧
    (seedDashboardRow item).replenishment_needs =
      max 0 (item.max_capacity - item.current_stock) ∧
    (seedHistoryRow mid r item).fv_replenishment_needs =
      max 0 (item.max_capacity - item.current_stock) :=
  ⟨rfl, rfl, rfl, rfl, rfl, rfl⟩

/-- C2: the per-item cost optimization computes `safety_stock = 1.65 *
(avg_usage_per_day * 0.2) * sqrt(restock_lead_time)`, `reorder_point =
avg_usage_per_day * restock_lead_time + safety_stock`, `eoq = sqrt(2 *
annual_demand * 50 / (unit_cost * 0.25))` with `annual_demand =
avg_usage_per_day * 365`, `optimal_order_quantity = min(ceil(eoq),
max_capacity)`, and `estimated_annual_cost = (annual_demand /
optimal_order_quantity) * 50 + (optimal_order_quantity / 2 +
safety_stock) * (unit_cost * 0.25) + annual_demand * unit_cost`; the
persisted row and the response carry the ceilings of `eoq`,
`reorder_point` and `safety_stock` while `optimal_order_quantity` and
`estimated_annual_cost` are not rounded further. -/
theorem costOptimizer_spec (item : CostItem) :
    (optimizeItem item).1.eoq =
      ((⌈Real.sqrt (2 * (item.avg_usage_per_day * 365) * 50 /
          (item.unit_cost * 0.25))⌉ : ℤ) : ℝ) ∧
    (optimizeItem item).1.safety_stock =
      ((⌈(1.65 * (item.avg_usage_per_day * 0.2) *
          Real.sqrt item.restock_lead_time : ℝ)⌉ : ℤ) : ℝ) ∧
    (optimizeItem item).1.reorder_point =
      ((⌈(item.avg_usage_per_day * item.restock_lead_time +
          1.65 * (item.avg_usage_per_day * 0.2) *
            Real.sqrt item.restock_lead_time : ℝ)⌉ : ℤ) : ℝ) ∧
    (optimizeItem item).1.optimal_order_quantity =
      min ((⌈Real.sqrt (2 * (item.avg_usage_per_day * 365) * 50 /
          (item.unit_cost * 0.25))⌉ : ℤ) : ℝ) item.max_capacity ∧
    (optimizeItem item).1.estimated_annual_cost =
      (item.avg_usage_per_day * 365 /
          (optimizeItem item).1.optimal_order_quantity) * 50 +
        ((optimizeItem item).1.optimal_order_quantity / 2 +
          1.65 * (item.avg_usage_per_day * 0.2) *
            Real.sqrt item.restock_lead_time) * (item.unit_cost * 0.25) +
        item.avg_usage_per_day * 365 * item.unit_cost ∧
    (optimizeItem item).2.eoq = (optimizeItem item).1.eoq ∧
    (optimizeItem item).2.reorder_point = (optimizeItem item).1.reorder_point ∧
    (optimizeItem item).2.safety_stock = (optimizeItem item).1.safety_stock ∧
    (optimizeItem item).2.optimal_order_quantity =
      (optimizeItem item).1.optimal_order_quantity ∧
    (optimizeItem item).2.estimated_annual_cost =
      (optimizeItem item).1.estimated_annual_cost :=
  ⟨rfl, rfl, rfl, rfl, rfl, rfl, rfl, rfl, rfl, rfl⟩

/-- C5: `optimal_order_quantity = min(ceil(eoq), max_capacity)` never
exceeds `max_capacity`, in the persisted row and in the response, for
every item (including `unit_cost = 0` or `avg_usage_per_day = 0`, where
the real-valued embedding gives `eoq = sqrt` of a division by zero). -/
theorem optimal_order_quantity_le_max_capacity (item : CostItem) :
    (optimizeItem item).1.optimal_order_quantity ≤ item.max_capacity ∧
    (optimizeItem item).2.optimal_order_quantity ≤ item.max_capacity :=
  ⟨min_le_right _ _, min_le_right _ _⟩

/-- C6: with `unit_cost` (hence the holding cost) equal and non-negative,
a larger `avg_usage_per_day` never decreases the eoq, neither the raw
`calculateEOQ` value as the handler invokes it nor the persisted ceiling. -/
theorem eoq_monotone_in_usage (i1 i2 : CostItem)
    (hcost : i1.unit_cost = i2.unit_cost)
    (hnn : 0 ≤ i1.unit_cost)
    (husage : i1.avg_usage_per_day ≤ i2.avg_usage_per_day) :
    calculateEOQ (i1.avg_usage_per_day * 365) 50 (i1.unit_cost * 0.25) ≤
      calculateEOQ (i2.avg_usage_per_day * 365) 50 (i2.unit_cost * 0.25) ∧
    (optimizeItem i1).1.eoq ≤ (optimizeItem i2).1.eoq := by
  have key : calculateEOQ (i1.avg_usage_per_day * 365) 50 (i1.unit_cost * 0.25) ≤
      calculateEOQ (i2.avg_usage_per_day * 365) 50 (i2.unit_cost * 0.25) := by
    unfold calculateEOQ
    apply Real.sqrt_le_sqrt
    rw [← hcost]
    rcases eq_or_lt_of_le hnn with hz | hpos
    · rw [← hz]
      norm_num
    · have hden : (0 : ℝ) < i1.unit_cost * 0.25 := by nlinarith
      rw [div_le_div_iff₀ hden hden]
      nlinarith
  refine ⟨key, ?_⟩
  show ((⌈calculateEOQ (i1.avg_usage_per_day * 365) 50
      (i1.unit_cost * 0.25)⌉ : ℤ) : ℝ) ≤
    ((⌈calculateEOQ (i2.avg_usage_per_day * 365) 50
      (i2.unit_cost * 0.25)⌉ : ℤ) : ℝ)
  exact_mod_cast Int.ceil_le_ceil key

/-- Witness for C6 on two concrete items differing only in usage. -/
theorem eoq_monotone_in_usage_witness :
    (c6ItemLow.unit_cost = c6ItemHigh.unit_cost ∧
     0 ≤ c6ItemLow.unit_cost ∧
     c6ItemLow.avg_usage_per_day ≤ c6ItemHigh.avg_usage_per_day) ∧
    (optimizeItem c6ItemLow).1.eoq ≤ (optimizeItem c6ItemHigh).1.eoq :=
  ⟨⟨rfl, by norm_num [c6ItemLow], by norm_num [c6ItemLow, c6ItemHigh]⟩,
   (eoq_monotone_in_usage c6ItemLow c6ItemHigh rfl
      (by norm_num [c6ItemLow]) (by norm_num [c6ItemLow, c6ItemHigh])).2⟩

/-- C10: `should_reorder` compares `current_stock` with the unrounded
reorder point while the `reorder_point` field carries its ceiling; on the
concrete item with usage 1, lead time 1 and stock 2 the unrounded point is
1.33, so `should_reorder` is false although `current_stock ≤` the
returned `reorder_point` (= 2). -/
theorem should_reorder_unrounded :
    (∀ item : CostItem,
      ((optimizeItem item).2.should_reorder ↔
        item.current_stock ≤
          item.avg_usage_per_day * item.restock_lead_time +
            1.65 * (item.avg_usage_per_day * 0.2) *
              Real.sqrt item.restock_lead_time) ∧
      (optimizeItem item).2.reorder_point =
        ((⌈(item.avg_usage_per_day * item.restock_lead_time +
            1.65 * (item.avg_usage_per_day * 0.2) *
              Real.sqrt item.restock_lead_time : ℝ)⌉ : ℤ) : ℝ)) ∧
    (¬ (optimizeItem c10Item).2.should_reorder ∧
      (optimizeItem c10Item).2.current_stock ≤
        (optimizeItem c10Item).2.reorder_point) := by
  refine ⟨fun item => ⟨Iff.rfl, rfl⟩, ?_, ?_⟩
  · show ¬ ((2 : ℝ) ≤ 1 * 1 + 1.65 * (1 * 0.2) * Real.sqrt 1)
    rw [Real.sqrt_one]
    norm_num
  · show (2 : ℝ) ≤
      ((⌈(1 * 1 + 1.65 * (1 * 0.2) * Real.sqrt 1 : ℝ)⌉ : ℤ) : ℝ)
    rw [Real.sqrt_one]
    have hc : ⌈(1 * 1 + 1.65 * (1 * 0.2) * 1 : ℝ)⌉ = 2 := by
      rw [Int.ceil_eq_iff]
      constructor <;> norm_num
    rw [hc]
    norm_num

/-- C8 counterexample: seed-sample-data performs no credential check — a
request without any authorization header still gets status 200 and rows
are written to the store. -/
theorem seed_no_auth_counterexample :
    (seedSampleData seedEnvW none).1.status = 200 ∧
    (seedSampleData seedEnvW none).2 ≠ [] :=
  ⟨rfl, List.cons_ne_nil _ _⟩

/-- C8 amended: run-predictions and calculate-cost-optimization fail with
a `{error: message}` body at status 500 and perform no store writes when
the bearer credential is missing or not resolvable by the identity
provider; seed-sample-data performs no credential check and writes its
catalog regardless of the authorization header. -/
theorem handlers_auth_amended :
    (∀ (env : Env) (req : PredictionRequest), req.authHeader = none →
      runPredictions env req =
        (⟨500, .error "Missing authorization header"⟩, [])) ∧
    (∀ (env : Env) (req : PredictionRequest) (h : String),
      req.authHeader = some h → env.getUser (bearerToken h) = none →
      runPredictions env req = (⟨500, .error "Unauthorized"⟩, [])) ∧
    (∀ (env : CostEnv) (req : CostRequest), req.authHeader = none →
      runCostOptimization env req =
        (⟨500, .error "Missing authorization header"⟩, [])) ∧
    (∀ (env : CostEnv) (req : CostRequest) (h : String),
      req.authHeader = some h → env.getUser (bearerToken h) = none →
      runCostOptimization env req = (⟨500, .error "Unauthorized"⟩, [])) ∧
    (∀ (env : SeedEnv) (ah : Option String),
      (seedSampleData env ah).1.status = 200 ∧
      (seedSampleData env ah).2 ≠ []) := by
  refine ⟨?_, ?_, ?_, ?_, ?_⟩
  · intro env req h
    simp [runPredictions, h]
  · intro env req h h1 h2
    simp [runPredictions, h1, h2]
  · intro env req h
    simp [runCostOptimization, h]
  · intro env req h h1 h2
    simp [runCostOptimization, h1, h2]
  · intro env ah
    exact ⟨rfl, List.cons_ne_nil _ _⟩

/-- Witness for C8 amended: a run-predictions request with no header and
a cost-optimization request whose token the provider rejects both yield
the 500 error with no writes. -/
theorem handlers_auth_amended_witness :
    (predReqNoAuth.authHeader = none ∧
     runPredictions predEnvW predReqNoAuth =
       (⟨500, .error "Missing authorization header"⟩, [])) ∧
    (costReqBadToken.authHeader = some "Bearer bad" ∧
     costEnvW.getUser (bearerToken "Bearer bad") = none ∧
     runCostOptimization costEnvW costReqBadToken =
       (⟨500, .error "Unauthorized"⟩, [])) :=
  ⟨⟨rfl, handlers_auth_amended.1 predEnvW predReqNoAuth rfl⟩,
   ⟨rfl, rfl,
    handlers_auth_amended.2.2.2.1 costEnvW costReqBadToken "Bearer bad" rfl rfl⟩⟩

/-- C9: with a valid credential, an active model and `single_prediction`
supplied, run-predictions returns 200 carrying the Estimator output and
the active model version and performs no store writes. -/
theorem runPredictions_demo_mode (env : Env) (req : PredictionRequest)
    (h u : String) (m : ModelEntry) (sp : SinglePrediction)
    (hauth : req.authHeader = some h)
    (huser : env.getUser (bearerToken h) = some u)
    (hmodel : latestActive env.models = some m)
    (hsp : req.single_prediction = some sp) :
    runPredictions env req =
      (⟨200, .demo (predictDemand sp.toItem) m.model_version⟩, []) := by
  simp [runPredictions, hauth, huser, hmodel, hsp]

/-- Witness for C9 at a concrete environment and demo request. -/
theorem runPredictions_demo_mode_witness :
    (demoReqW.authHeader = some "Bearer tok" ∧
     demoEnvW.getUser (bearerToken "Bearer tok") = some "user1" ∧
     latestActive demoEnvW.models = some demoModelW ∧
     demoReqW.single_prediction = some demoSpW) ∧
    runPredictions demoEnvW demoReqW =
      (⟨200, .demo (predictDemand demoSpW.toItem) demoModelW.model_version⟩,
       []) :=
  ⟨⟨rfl, rfl, rfl, rfl⟩,
   runPredictions_demo_mode demoEnvW demoReqW "Bearer tok" "user1"
     demoModelW demoSpW rfl rfl rfl rfl⟩

end MedStock
